import Mathlib

/-!
Verification of the NEO (near-Earth object) fetch-and-flatten program
(`src/main.py`, class `NearEarthObjects`).

The development shallowly embeds the two pieces of the program with
structural logic:

* the date handling of `NearEarthObjects.__init__` and
  `get_neos_by_date_range` (Python `datetime.strptime` with format
  `%Y-%m-%d`, `timedelta` date arithmetic, `strftime`), and
* the JSON-flattening loop of `get_neos_by_date_range` that turns the
  `near_earth_objects` payload into a table of rows.

Machine dates are modelled by a `Date` structure over `Nat` together with
the proleptic-Gregorian ordinal used by `datetime` for subtraction.  The
payload is modelled by a JSON-like inductive `JVal`; numeric payload
values are carried as uninterpreted literals because the flattener never
computes with them.  Python exceptions (`KeyError`, `IndexError`,
`TypeError` from the fixed-schema field accesses) are modelled with
`Except`: an exception anywhere in the loop aborts the whole flatten with
no rows, exactly as an uncaught Python exception does.  Digit characters
are modelled as ASCII digits.
-/

/-- A calendar date, as produced by `datetime.strptime(s, '%Y-%m-%d')`. -/
structure Date where
  year : Nat
  month : Nat
  day : Nat
deriving DecidableEq, Repr

/-- Gregorian leap-year rule used by `datetime`. -/
def isLeap (y : Nat) : Bool :=
  (y % 4 == 0 && y % 100 != 0) || y % 400 == 0

/-- Number of days in month `m` of year `y` (months are 1-based). -/
def daysInMonth (y m : Nat) : Nat :=
  if m = 2 then (if isLeap y then 29 else 28)
  else if m = 4 ∨ m = 6 ∨ m = 9 ∨ m = 11 then 30
  else 31

/-- Cumulative days before month `m` in a non-leap year
(the `_DAYS_BEFORE_MONTH` table of `datetime`). -/
def daysBeforeMonthTable : Nat → Nat
  | 1 => 0
  | 2 => 31
  | 3 => 59
  | 4 => 90
  | 5 => 120
  | 6 => 151
  | 7 => 181
  | 8 => 212
  | 9 => 243
  | 10 => 273
  | 11 => 304
  | 12 => 334
  | _ => 365

/-- Cumulative days before month `m` in year `y`. -/
def daysBeforeMonth (y m : Nat) : Nat :=
  daysBeforeMonthTable m + (if 2 < m ∧ isLeap y then 1 else 0)

/-- Proleptic-Gregorian ordinal of a date (`date.toordinal` in Python):
0001-01-01 is day 1.  `datetime` subtraction of two midnight datetimes
yields a `timedelta` whose `.days` is the difference of these ordinals. -/
def toOrdinal (d : Date) : Nat :=
  let y := d.year - 1
  365 * y + y / 4 - y / 100 + y / 400 + daysBeforeMonth d.year d.month + d.day

/-- The day after `d` (for in-range dates this is `d + timedelta(days=1)`). -/
def succDay (d : Date) : Date :=
  if d.day < daysInMonth d.year d.month then ⟨d.year, d.month, d.day + 1⟩
  else if d.month < 12 then ⟨d.year, d.month + 1, 1⟩
  else ⟨d.year + 1, 1, 1⟩

/-- `d + timedelta(days=n)` (calendar addition by repeated day increments). -/
def addDays : Date → Nat → Date
  | d, 0 => d
  | d, n + 1 => addDays (succDay d) n

/-- Decimal digit value of an ASCII digit character. -/
def digitVal (c : Char) : Nat := c.toNat - 48

/-- Numeric value of a non-empty all-digit character run; `none` otherwise. -/
def parseNum (l : List Char) : Option Nat :=
  if l ≠ [] ∧ l.all Char.isDigit then
    some (l.foldl (fun a c => a * 10 + digitVal c) 0)
  else none

/-- A digit run constrained to between `lo` and `hi` characters, as the
`strptime` regex fragments for `%Y` (4) and `%m`, `%d` (1 or 2) require. -/
def parseFixed (l : List Char) (lo hi : Nat) : Option Nat :=
  if lo ≤ l.length ∧ l.length ≤ hi then parseNum l else none

/-- Split a character list on every `'-'`. -/
def splitOnDash : List Char → List (List Char)
  | [] => [[]]
  | c :: rest =>
    let r := splitOnDash rest
    if c = '-' then [] :: r
    else
      match r with
      | g :: gs => (c :: g) :: gs
      | [] => [[c]]

/-- `datetime.strptime(s, '%Y-%m-%d')`: exactly `YYYY-MM-DD` with a 4-digit
year, 1- or 2-digit month and day, the whole string consumed, and the
resulting numbers forming a real calendar date (month 1..12, day within
the month, year at least `MINYEAR = 1`).  Returns `none` exactly when the
Python call raises `ValueError`. -/
def parseDate (s : String) : Option Date :=
  match splitOnDash s.data with
  | [ys, ms, ds] =>
    match parseFixed ys 4 4, parseFixed ms 1 2, parseFixed ds 1 2 with
    | some y, some m, some d =>
      if 1 ≤ y ∧ 1 ≤ m ∧ m ≤ 12 ∧ 1 ≤ d ∧ d ≤ daysInMonth y m then
        some ⟨y, m, d⟩
      else none
    | _, _, _ => none
  | _ => none

/-- Decimal rendering of `n` left-padded with zeros to `width` characters. -/
def padNum (n width : Nat) : String :=
  let s := Nat.repr n
  String.mk (List.replicate (width - s.length) '0') ++ s

/-- `d.strftime('%Y-%m-%d')`: zero-padded 4-digit year, 2-digit month and
day, joined with dashes. -/
def formatDate (d : Date) : String :=
  padNum d.year 4 ++ "-" ++ padNum d.month 2 ++ "-" ++ padNum d.day 2

/-- How a run of `get_neos_by_date_range` leaves the date-checking phase. -/
inductive Outcome where
  /-- Reading `day_diff_days` after the parse failure was swallowed:
  the variable was never assigned, so Python raises `UnboundLocalError`
  at the `if day_diff_days > 7` line. -/
  | unboundLocal : Outcome
  /-- The explicit `raise ValueError` for an over-long range, carrying
  `day_diff_days` and `alternative_end_date_str`. -/
  | rangeError : Int → String → Outcome
  /-- Validation passed; the fetch URL is built from these two strings
  (`self.start_date` and `self.finish_date`, unchanged). -/
  | fetch : String → String → Outcome
deriving DecidableEq

/-- What the date-checking phase printed, and how it left. -/
structure RunResult where
  printed : List String
  outcome : Outcome
deriving DecidableEq

/-- The message printed in the `except ValueError` handler. -/
def formatErrMsg : String :=
  "Date format does not seem correct. Please make sure it is in the form YYYY-MM-DD"

/-- The date-checking phase of `NearEarthObjects.get_neos_by_date_range`
(src/main.py lines 36-55).  The `try` block parses `finish_date` first
(Python evaluates the left operand of `-` first), then `start_date`, and
assigns `day_diff_days`; on `ValueError` the handler only prints.  The
`if day_diff_days > 7` check then either raises the range `ValueError`
with the suggested `start + 7 days` end date, reads an unassigned local
when a parse failed, or falls through to the `requests.get` fetch that
interpolates the stored date strings unchanged. -/
def get_neos_by_date_range (start_date finish_date : String) : RunResult :=
  match parseDate finish_date, parseDate start_date with
  | some f, some s =>
    let day_diff_days : Int := (toOrdinal f : Int) - (toOrdinal s : Int)
    if day_diff_days > 7 then
      ⟨[], Outcome.rangeError day_diff_days (formatDate (addDays s 7))⟩
    else
      ⟨[], Outcome.fetch start_date finish_date⟩
  | _, _ => ⟨[formatErrMsg], Outcome.unboundLocal⟩

/-- The date-related state stored by `NearEarthObjects.__init__`, plus
whether `warnings.warn` fired. -/
structure NeoState where
  warned : Bool
  start_date : String
  finish_date : String
deriving DecidableEq

/-- `NearEarthObjects.__init__` (src/main.py lines 11-22): if either
supplied date is `None`, warn and store today's date and today + 7 days,
both formatted `%Y-%m-%d`; otherwise store the supplied strings.
`datetime.today()` is passed in as the `today` parameter. -/
def neo_init (today : Date) : Option String → Option String → NeoState
  | some s, some f => ⟨false, s, f⟩
  | _, _ => ⟨true, formatDate today, formatDate (addDays today 7)⟩

/-! ## The JSON payload model and the flattening loop -/

/-- A JSON-like payload value.  Numbers are carried as uninterpreted
literals (`num`): the flattening loop in `get_neos_by_date_range` never
computes with payload values, it only moves them into columns. -/
inductive JVal where
  | str : String → JVal
  | boolv : Bool → JVal
  | num : String → JVal
  | obj : List (String × JVal) → JVal
  | arr : List JVal → JVal

/-- A Python dict with string keys, in insertion order. -/
abbrev Dict := List (String × JVal)

/-- One named column of an output row. -/
abbrev Col := String × JVal

/-- `d[k]` lookup (first occurrence; Python dict keys are unique). -/
def dictGet : Dict → String → Option JVal
  | [], _ => none
  | (k, v) :: rest, key => if k = key then some v else dictGet rest key

/-- The Python exceptions the flattening loop can raise; any one of them
propagates out of `get_neos_by_date_range` uncaught. -/
inductive FlatError where
  | keyError : String → FlatError
  | indexError : FlatError
  | typeError : FlatError

/-- `list_item[k]`: `KeyError` when the key is absent. -/
def getKey (o : Dict) (k : String) : Except FlatError JVal :=
  match dictGet o k with
  | some v => Except.ok v
  | none => Except.error (FlatError.keyError k)

/-- View a value as a dict (`.items()` iteration); `TypeError` otherwise. -/
def asObj : JVal → Except FlatError Dict
  | JVal.obj fields => Except.ok fields
  | _ => Except.error FlatError.typeError

/-- View a value as a list; `TypeError` otherwise. -/
def asArr : JVal → Except FlatError (List JVal)
  | JVal.arr xs => Except.ok xs
  | _ => Except.error FlatError.typeError

/-- `lst[0]`: `IndexError` on an empty list. -/
def firstItem : List JVal → Except FlatError JVal
  | [] => Except.error FlatError.indexError
  | x :: _ => Except.ok x

/-- The `unnested_general_keys` list of src/main.py lines 67-73, in
source order. -/
def unnested_general_keys : List String :=
  ["links", "id", "name", "nasa_jpl_url", "absolute_magnitude_h",
   "is_potentially_hazardous_asteroid", "is_sentry_object"]

/-- The `unnested_approach_keys` list of src/main.py lines 89-90. -/
def unnested_approach_keys : List String :=
  ["close_approach_date_full", "orbiting_body"]

/-- The `nested_approach_keys` list of src/main.py lines 95-96. -/
def nested_approach_keys : List String :=
  ["relative_velocity", "miss_distance"]

/-- `{k: o[k] for k in ks}` rendered as an ordered column list: looks the
keys up in order and fails with the first `KeyError`. -/
def getCols (o : Dict) : List String → Except FlatError (List Col)
  | [] => Except.ok []
  | k :: ks =>
    match getKey o k with
    | Except.error e => Except.error e
    | Except.ok v =>
      match getCols o ks with
      | Except.error e => Except.error e
      | Except.ok rest => Except.ok ((k, v) :: rest)

/-- The size loop (src/main.py lines 81-85): for each unit-system entry
`(k_size, v_size)` of `estimated_diameter`, in delivered order, emit one
column per field of `v_size`, renamed `size_<k_size>_<field>`, and
concatenate the groups left to right (`pd.concat(..., axis=1)`). -/
def sizeGroups : List (String × JVal) → Except FlatError (List Col)
  | [] => Except.ok []
  | (kSize, vSize) :: rest =>
    match asObj vSize with
    | Except.error e => Except.error e
    | Except.ok fields =>
      match sizeGroups rest with
      | Except.error e => Except.error e
      | Except.ok restCols =>
        Except.ok ((fields.map (fun p => ("size_" ++ kSize ++ "_" ++ p.1, p.2))) ++ restCols)

/-- The nested-approach loop (src/main.py lines 98-102): for each key
`ap` in `nested_approach_keys`, rename the sub-dict's columns to
`<ap>_<unit>` and *prepend* them to the accumulator, matching
`pd.concat([nested_approach_temp_df, nested_approach_df], axis=1)`. -/
def nestedLoop (ad : Dict) : List String → List Col → Except FlatError (List Col)
  | [], acc => Except.ok acc
  | ap :: rest, acc =>
    match getKey ad ap with
    | Except.error e => Except.error e
    | Except.ok v =>
      match asObj v with
      | Except.error e => Except.error e
      | Except.ok sub =>
        nestedLoop ad rest ((sub.map (fun p => (ap ++ "_" ++ p.1, p.2))) ++ acc)

/-- The body of the per-object loop (src/main.py lines 66-106): general
columns, then size columns, then the first close-approach entry's plain
and nested columns, merged left to right as
`pd.concat([unnested_general_df, size_df, approach_df, nested_approach_df], axis=1)`. -/
def flatten_list_item (list_item : Dict) : Except FlatError (List Col) := do
  let general ← getCols list_item unnested_general_keys
  let size_dict ← getKey list_item "estimated_diameter" >>= asObj
  let size_cols ← sizeGroups size_dict
  let cad ← getKey list_item "close_approach_data" >>= asArr
  let approach_data_dict ← firstItem cad >>= asObj
  let approach_cols ← getCols approach_data_dict unnested_approach_keys
  let nested_cols ← nestedLoop approach_data_dict nested_approach_keys []
  pure (general ++ size_cols ++ approach_cols ++ nested_cols)

/-- The row loop (src/main.py lines 64-107): flatten the objects in
order, appending each row (`pd.concat(..., axis=0)`); the first raised
exception aborts the whole call, so no rows survive an error. -/
def flatten_items : List Dict → Except FlatError (List (List Col))
  | [] => Except.ok []
  | o :: os =>
    match flatten_list_item o with
    | Except.error e => Except.error e
    | Except.ok row =>
      match flatten_items os with
      | Except.error e => Except.error e
      | Except.ok rows => Except.ok (row :: rows)

/-- The objects of a payload in iteration order: the payload's dates in
insertion order (`neos.items()`), then each date's list in order. -/
def allObjects (payload : List (String × List Dict)) : List Dict :=
  (payload.map Prod.snd).flatten

/-- The whole flatten phase of `get_neos_by_date_range`
(src/main.py lines 63-109) applied to the `near_earth_objects` payload. -/
def flatten_feed (payload : List (String × List Dict)) : Except FlatError (List (List Col)) :=
  flatten_items (allObjects payload)

/-- Is this value a dict? -/
def isObjB : JVal → Bool
  | JVal.obj _ => true
  | _ => false

/-- Does `o` have key `k`? -/
def hasKey (o : Dict) (k : String) : Bool :=
  (dictGet o k).isSome

/-- Well-formedness of a close-approach entry: the two plain fields are
present and the two nested sub-structures are dicts. -/
def wfApproach (fd : Dict) : Bool :=
  hasKey fd "close_approach_date_full" && hasKey fd "orbiting_body" &&
  (match dictGet fd "relative_velocity" with
   | some (JVal.obj _) => true
   | _ => false) &&
  (match dictGet fd "miss_distance" with
   | some (JVal.obj _) => true
   | _ => false)

/-- A well-formed object record: all required general fields present,
`estimated_diameter` a dict of per-unit dicts, and a non-empty
`close_approach_data` list whose first entry is a well-formed dict. -/
def WellFormedItem (o : Dict) : Bool :=
  unnested_general_keys.all (hasKey o) &&
  (match dictGet o "estimated_diameter" with
   | some (JVal.obj units) => units.all (fun p => isObjB p.2)
   | _ => false) &&
  (match dictGet o "close_approach_data" with
   | some (JVal.arr (JVal.obj fd :: _)) => wfApproach fd
   | _ => false)

/-- Total number of object records in a payload, summed across dates. -/
def totalCount (payload : List (String × List Dict)) : Nat :=
  (payload.map (fun p => p.2.length)).sum

/-! ## Concrete payload data (the worked example of spec.md section 8) -/

/-- The close-approach entry of the worked example. -/
def exApproach : Dict :=
  [("close_approach_date_full", JVal.str "2024-Jan-01 00:00"),
   ("orbiting_body", JVal.str "Earth"),
   ("relative_velocity", JVal.obj [("kilometers_per_second", JVal.num "10.5")]),
   ("miss_distance", JVal.obj [("kilometers", JVal.num "50000")])]

/-- A second, different close-approach entry, used to show it is ignored
when it is not first. -/
def exApproach2 : Dict :=
  [("close_approach_date_full", JVal.str "2024-Jan-02 12:00"),
   ("orbiting_body", JVal.str "Moon"),
   ("relative_velocity", JVal.obj [("kilometers_per_second", JVal.num "77")]),
   ("miss_distance", JVal.obj [("kilometers", JVal.num "1")])]

/-- The worked example's object record, minus `close_approach_data`. -/
def exItemBase : Dict :=
  [("id", JVal.str "1"), ("name", JVal.str "A"), ("nasa_jpl_url", JVal.str "u"),
   ("absolute_magnitude_h", JVal.num "20.1"),
   ("is_potentially_hazardous_asteroid", JVal.boolv false),
   ("is_sentry_object", JVal.boolv false),
   ("links", JVal.obj []),
   ("estimated_diameter",
    JVal.obj [("kilometers",
               JVal.obj [("estimated_diameter_min", JVal.num "0.1"),
                         ("estimated_diameter_max", JVal.num "0.2")])])]

/-- The worked example's object record (one close-approach entry). -/
def exItem : Dict :=
  exItemBase ++ [("close_approach_data", JVal.arr [JVal.obj exApproach])]

/-- The same record with a second close-approach entry appended. -/
def exItemTwo : Dict :=
  exItemBase ++ [("close_approach_data", JVal.arr [JVal.obj exApproach, JVal.obj exApproach2])]

/-- The row the flattener produces for `exItem` (and for `exItemTwo`). -/
def exRow : List Col :=
  [("links", JVal.obj []), ("id", JVal.str "1"), ("name", JVal.str "A"),
   ("nasa_jpl_url", JVal.str "u"), ("absolute_magnitude_h", JVal.num "20.1"),
   ("is_potentially_hazardous_asteroid", JVal.boolv false),
   ("is_sentry_object", JVal.boolv false),
   ("size_kilometers_estimated_diameter_min", JVal.num "0.1"),
   ("size_kilometers_estimated_diameter_max", JVal.num "0.2"),
   ("close_approach_date_full", JVal.str "2024-Jan-01 00:00"),
   ("orbiting_body", JVal.str "Earth"),
   ("miss_distance_kilometers", JVal.num "50000"),
   ("relative_velocity_kilometers_per_second", JVal.num "10.5")]

/-- A two-date payload built from the example records. -/
def exPayload : List (String × List Dict) :=
  [("2024-01-01", [exItem]), ("2024-01-02", [exItemTwo])]

/-- A record missing the required general field `name`. -/
def exItemNoName : Dict :=
  [("id", JVal.str "2"), ("nasa_jpl_url", JVal.str "u"),
   ("absolute_magnitude_h", JVal.num "19"),
   ("is_potentially_hazardous_asteroid", JVal.boolv true),
   ("is_sentry_object", JVal.boolv false),
   ("links", JVal.obj []),
   ("estimated_diameter",
    JVal.obj [("kilometers",
               JVal.obj [("estimated_diameter_min", JVal.num "0.3"),
                         ("estimated_diameter_max", JVal.num "0.4")])]),
   ("close_approach_data", JVal.arr [JVal.obj exApproach])]

/-- A payload whose second record lacks `name`. -/
def exPayloadBad : List (String × List Dict) :=
  [("2024-01-01", [exItem]), ("2024-01-02", [exItemNoName])]

theorem sanity_parse_ok : parseDate "2024-01-01" = some ⟨2024, 1, 1⟩ := by decide

theorem sanity_parse_bad : parseDate "2024-13-01" = none := by decide

theorem sanity_add : formatDate (addDays ⟨2024, 2, 26⟩ 7) = "2024-03-04" := by decide

/-! ## Date-range validation claims -/

/-- C1: for every pair of date strings that both parse under `%Y-%m-%d`
and whose day difference is between 0 and 7, `get_neos_by_date_range`
raises no range error and proceeds to the fetch with the two date
strings unchanged. -/
theorem validate_within_week_fetches_unchanged
    (start finish : String) (s f : Date)
    (hs : parseDate start = some s) (hf : parseDate finish = some f)
    (h0 : 0 ≤ (toOrdinal f : Int) - (toOrdinal s : Int))
    (h7 : (toOrdinal f : Int) - (toOrdinal s : Int) ≤ 7) :
    get_neos_by_date_range start finish = ⟨[], Outcome.fetch start finish⟩ := by
  unfold get_neos_by_date_range
  rw [hf, hs]
  have hne : ¬((toOrdinal f : Int) - (toOrdinal s : Int) > 7) := by omega
  simp [hne]

/-- Witness for C1 at `("2024-01-01", "2024-01-05")`. -/
theorem validate_within_week_fetches_unchanged_witness :
    get_neos_by_date_range "2024-01-01" "2024-01-05" =
      ⟨[], Outcome.fetch "2024-01-01" "2024-01-05"⟩ :=
  validate_within_week_fetches_unchanged "2024-01-01" "2024-01-05"
    ⟨2024, 1, 1⟩ ⟨2024, 1, 5⟩ (by decide) (by decide) (by decide) (by decide)

/-- C2: for every pair of date strings that both parse under `%Y-%m-%d`
with a day difference above 7, `get_neos_by_date_range` raises the range
`ValueError` whose suggested alternative end date is `start + 7 days`
formatted `%Y-%m-%d`; the outcome is the range error, so the fetch is
never reached. -/
theorem validate_over_week_range_error
    (start finish : String) (s f : Date)
    (hs : parseDate start = some s) (hf : parseDate finish = some f)
    (h7 : (toOrdinal f : Int) - (toOrdinal s : Int) > 7) :
    get_neos_by_date_range start finish =
      ⟨[], Outcome.rangeError ((toOrdinal f : Int) - (toOrdinal s : Int))
             (formatDate (addDays s 7))⟩ := by
  unfold get_neos_by_date_range
  rw [hf, hs]
  simp [h7]

/-- Witness for C2: the spec's own example
`validate("2024-01-01", "2024-01-10")`, whose suggested alternative end
date is `"2024-01-08"`. -/
theorem validate_over_week_range_error_witness :
    get_neos_by_date_range "2024-01-01" "2024-01-10" =
      ⟨[], Outcome.rangeError 9 "2024-01-08"⟩ :=
  validate_over_week_range_error "2024-01-01" "2024-01-10"
    ⟨2024, 1, 1⟩ ⟨2024, 1, 10⟩ (by decide) (by decide) (by decide)

/-- C3: whenever at least one of the two date strings fails to parse,
the method prints the format message, raises no range `ValueError`, and
execution continues past the swallowed parse failure into the range
check (where it stops with the unbound-local read, not with a range
violation). -/
theorem parse_failure_reported_no_range_error
    (start finish : String)
    (h : parseDate start = none ∨ parseDate finish = none) :
    (get_neos_by_date_range start finish).printed = [formatErrMsg] ∧
    (∀ d alt, (get_neos_by_date_range start finish).outcome ≠ Outcome.rangeError d alt) ∧
    (get_neos_by_date_range start finish).outcome = Outcome.unboundLocal := by
  have hres : get_neos_by_date_range start finish = ⟨[formatErrMsg], Outcome.unboundLocal⟩ := by
    unfold get_neos_by_date_range
    rcases h with h | h
    · rw [h]
      cases parseDate finish <;> rfl
    · rw [h]
  rw [hres]
  refine ⟨rfl, ?_, rfl⟩
  intro d alt hcontra
  simp at hcontra

/-- Witness for C3 at the malformed month `"2024-13-01"`. -/
theorem parse_failure_reported_no_range_error_witness :
    (get_neos_by_date_range "2024-13-01" "2024-01-05").printed = [formatErrMsg] ∧
    (∀ d alt, (get_neos_by_date_range "2024-13-01" "2024-01-05").outcome ≠
      Outcome.rangeError d alt) ∧
    (get_neos_by_date_range "2024-13-01" "2024-01-05").outcome = Outcome.unboundLocal :=
  parse_failure_reported_no_range_error "2024-13-01" "2024-01-05" (Or.inl (by decide))

/-- C9: whenever at least one of the two date strings fails to parse,
the swallowed `ValueError` leaves `day_diff_days` unassigned, so the
range check always stops with the unbound-local read: the method never
returns normally and never reaches the fetch. -/
theorem parse_failure_unbound_local
    (start finish : String)
    (h : parseDate start = none ∨ parseDate finish = none) :
    (get_neos_by_date_range start finish).outcome = Outcome.unboundLocal ∧
    (∀ u v, (get_neos_by_date_range start finish).outcome ≠ Outcome.fetch u v) := by
  have hres : get_neos_by_date_range start finish = ⟨[formatErrMsg], Outcome.unboundLocal⟩ := by
    unfold get_neos_by_date_range
    rcases h with h | h
    · rw [h]
      cases parseDate finish <;> rfl
    · rw [h]
  rw [hres]
  refine ⟨rfl, ?_⟩
  intro u v hcontra
  simp at hcontra

/-- Witness for C9 at the unparsable start date `"bad"`. -/
theorem parse_failure_unbound_local_witness :
    (get_neos_by_date_range "bad" "2024-01-05").outcome = Outcome.unboundLocal ∧
    (∀ u v, (get_neos_by_date_range "bad" "2024-01-05").outcome ≠ Outcome.fetch u v) :=
  parse_failure_unbound_local "bad" "2024-01-05" (Or.inl (by decide))

/-- C10: if either constructor date argument is `None`, both stored
dates are the defaults (today and today + 7 days, formatted `%Y-%m-%d`)
and the warning fires; a concretely supplied value for the other date is
discarded. -/
theorem init_defaults_both_dates
    (today : Date) (s f : Option String)
    (h : s = none ∨ f = none) :
    neo_init today s f =
      ⟨true, formatDate today, formatDate (addDays today 7)⟩ := by
  rcases h with h | h
  · subst h
    rfl
  · subst h
    cases s <;> rfl

/-- Witness for C10: a supplied start date together with a missing
finish date, on 2024-01-01. -/
theorem init_defaults_both_dates_witness :
    neo_init ⟨2024, 1, 1⟩ (some "2023-05-05") none =
      ⟨true, "2024-01-01", "2024-01-08"⟩ :=
  init_defaults_both_dates ⟨2024, 1, 1⟩ (some "2023-05-05") none (Or.inr rfl)

/-! ## Flattening claims -/

@[simp] theorem exc_bind_ok {α β ε : Type} (a : α) (f : α → Except ε β) :
    (Except.ok a >>= f) = f a := rfl

@[simp] theorem exc_bind_error {α β ε : Type} (e : ε) (f : α → Except ε β) :
    ((Except.error e : Except ε α) >>= f) = Except.error e := rfl

@[simp] theorem exc_pure {α ε : Type} (a : α) :
    (pure a : Except ε α) = Except.ok a := rfl

theorem getCols_isOk (o : Dict) (ks : List String)
    (h : ks.all (hasKey o) = true) : ∃ cols, getCols o ks = Except.ok cols := by
  induction ks with
  | nil => exact ⟨[], rfl⟩
  | cons k ks ih =>
    rw [List.all_cons, Bool.and_eq_true] at h
    obtain ⟨h1, h2⟩ := h
    rw [hasKey, Option.isSome_iff_exists] at h1
    obtain ⟨v, hv⟩ := h1
    obtain ⟨cols, hc⟩ := ih h2
    exact ⟨(k, v) :: cols, by simp [getCols, getKey, hv, hc]⟩

theorem sizeGroups_isOk (units : List (String × JVal))
    (h : units.all (fun p => isObjB p.2) = true) :
    ∃ cols, sizeGroups units = Except.ok cols := by
  induction units with
  | nil => exact ⟨[], rfl⟩
  | cons u rest ih =>
    rw [List.all_cons, Bool.and_eq_true] at h
    obtain ⟨h1, h2⟩ := h
    obtain ⟨cols, hc⟩ := ih h2
    obtain ⟨k, v⟩ := u
    cases v with
    | obj fields =>
      exact ⟨(fields.map (fun p => ("size_" ++ k ++ "_" ++ p.1, p.2))) ++ cols,
        by simp [sizeGroups, asObj, hc]⟩
    | str s => simp [isObjB] at h1
    | boolv b => simp [isObjB] at h1
    | num n => simp [isObjB] at h1
    | arr xs => simp [isObjB] at h1

theorem getCols_approach (fd : Dict) (cadf orb : JVal)
    (h1 : dictGet fd "close_approach_date_full" = some cadf)
    (h2 : dictGet fd "orbiting_body" = some orb) :
    getCols fd unnested_approach_keys =
      Except.ok [("close_approach_date_full", cadf), ("orbiting_body", orb)] := by
  simp [unnested_approach_keys, getCols, getKey, h1, h2]

theorem nestedLoop_closed (fd rv md : Dict)
    (hrv : dictGet fd "relative_velocity" = some (JVal.obj rv))
    (hmd : dictGet fd "miss_distance" = some (JVal.obj md)) :
    nestedLoop fd nested_approach_keys [] =
      Except.ok ((md.map (fun p => ("miss_distance_" ++ p.1, p.2))) ++
                 (rv.map (fun p => ("relative_velocity_" ++ p.1, p.2)))) := by
  simp [nested_approach_keys, nestedLoop, getKey, hrv, hmd, asObj]

theorem wf_flatten_isOk (o : Dict) (h : WellFormedItem o = true) :
    ∃ row, flatten_list_item o = Except.ok row := by
  rw [WellFormedItem, Bool.and_eq_true, Bool.and_eq_true] at h
  obtain ⟨⟨hgen, hsize⟩, hcad⟩ := h
  obtain ⟨general, hg⟩ := getCols_isOk o _ hgen
  split at hsize
  case h_2 => cases hsize
  case h_1 _ units hunits =>
  obtain ⟨size_cols, hsc⟩ := sizeGroups_isOk units hsize
  split at hcad
  case h_2 => cases hcad
  case h_1 _ fd rest hfd =>
  rw [wfApproach, Bool.and_eq_true, Bool.and_eq_true, Bool.and_eq_true] at hcad
  obtain ⟨⟨⟨ha1, ha2⟩, ha3⟩, ha4⟩ := hcad
  rw [hasKey, Option.isSome_iff_exists] at ha1 ha2
  obtain ⟨cadf, hcadf⟩ := ha1
  obtain ⟨orb, horb⟩ := ha2
  split at ha3
  case h_2 => cases ha3
  case h_1 _ rv hrv =>
  split at ha4
  case h_2 => cases ha4
  case h_1 _ md hmd =>
  refine ⟨general ++ size_cols ++
    [("close_approach_date_full", cadf), ("orbiting_body", orb)] ++
    ((md.map (fun p => ("miss_distance_" ++ p.1, p.2))) ++
     (rv.map (fun p => ("relative_velocity_" ++ p.1, p.2)))), ?_⟩
  simp only [flatten_list_item]
  rw [hg]
  simp [getKey, hunits, hfd, asObj, asArr, firstItem, hsc,
    getCols_approach fd cadf orb hcadf horb, nestedLoop_closed fd rv md hrv hmd]

theorem flatten_items_ok_of_wf (os : List Dict)
    (h : ∀ o ∈ os, WellFormedItem o = true) :
    ∃ rows, flatten_items os = Except.ok rows ∧ rows.length = os.length := by
  induction os with
  | nil => exact ⟨[], rfl, rfl⟩
  | cons o os ih =>
    obtain ⟨row, hrow⟩ := wf_flatten_isOk o (h o (by simp))
    obtain ⟨rows, hrows, hlen⟩ := ih (fun x hx => h x (by simp [hx]))
    exact ⟨row :: rows, by simp [flatten_items, hrow, hrows], by simp [hlen]⟩

/-- C4: for every payload all of whose object records are well formed,
the flatten loop succeeds and the number of output rows equals the total
number of object records summed across all dates of the payload. -/
theorem flatten_row_count_eq_total (payload : List (String × List Dict))
    (h : ∀ o ∈ allObjects payload, WellFormedItem o = true) :
    ∃ rows, flatten_feed payload = Except.ok rows ∧
      rows.length = totalCount payload := by
  obtain ⟨rows, h1, h2⟩ := flatten_items_ok_of_wf _ h
  refine ⟨rows, h1, ?_⟩
  rw [h2]
  rw [allObjects, totalCount, List.length_flatten, List.map_map]
  rfl

/-- Witness for C4: the two-date example payload flattens to exactly two
rows. -/
theorem flatten_row_count_eq_total_witness :
    ∃ rows, flatten_feed exPayload = Except.ok rows ∧
      rows.length = totalCount exPayload :=
  flatten_row_count_eq_total exPayload (by intro o ho; fin_cases ho <;> rfl)

theorem getCols_congr (o o' : Dict) (ks : List String)
    (h : ∀ k ∈ ks, dictGet o k = dictGet o' k) :
    getCols o ks = getCols o' ks := by
  induction ks with
  | nil => rfl
  | cons k ks ih =>
    have h1 : dictGet o k = dictGet o' k := h k (by simp)
    have h2 := ih (fun x hx => h x (by simp [hx]))
    simp only [getCols, getKey, h1, h2]

/-- C5: only the first close-approach entry is consulted.  Two object
records with the same first close-approach entry, arbitrary (and
possibly different) later entries, and identical values at every other
key flatten to identical rows: the approach-date, orbiting-body,
relative-velocity and miss-distance columns all come from the first
entry alone. -/
theorem flatten_first_approach_wins (o o' : Dict) (a : JVal) (r r' : List JVal)
    (hcad : dictGet o "close_approach_data" = some (JVal.arr (a :: r)))
    (hcad' : dictGet o' "close_approach_data" = some (JVal.arr (a :: r')))
    (hag : ∀ k, k ≠ "close_approach_data" → dictGet o k = dictGet o' k) :
    flatten_list_item o = flatten_list_item o' := by
  have g1 : getCols o unnested_general_keys = getCols o' unnested_general_keys := by
    apply getCols_congr
    intro k hk
    apply hag
    fin_cases hk <;> decide
  have g2 : getKey o "estimated_diameter" = getKey o' "estimated_diameter" := by
    rw [getKey, getKey, hag "estimated_diameter" (by decide)]
  have g3 : getKey o "close_approach_data" = Except.ok (JVal.arr (a :: r)) := by
    rw [getKey, hcad]
  have g3' : getKey o' "close_approach_data" = Except.ok (JVal.arr (a :: r')) := by
    rw [getKey, hcad']
  simp only [flatten_list_item, g1, g2, g3, g3']
  simp [asArr, firstItem]

theorem dictGet_append_single (base : Dict) (c : String) (v1 v2 : JVal)
    (k : String) (hk : k ≠ c) :
    dictGet (base ++ [(c, v1)]) k = dictGet (base ++ [(c, v2)]) k := by
  induction base with
  | nil =>
    simp only [List.nil_append, dictGet]
    rw [if_neg (fun h => hk h.symm), if_neg (fun h => hk h.symm)]
  | cons p rest ih =>
    simp only [List.cons_append, dictGet]
    split
    · rfl
    · exact ih

/-- Witness for C5: the example record and its variant with a second,
different close-approach entry appended flatten to the same row. -/
theorem flatten_first_approach_wins_witness :
    flatten_list_item exItem = flatten_list_item exItemTwo :=
  flatten_first_approach_wins exItem exItemTwo
    (JVal.obj exApproach) [] [JVal.obj exApproach2] rfl rfl
    (fun k hk => dictGet_append_single exItemBase "close_approach_data" _ _ k hk)

theorem getCols_err_of_missing (o : Dict) (ks : List String) (k : String)
    (hk : k ∈ ks) (hm : dictGet o k = none) :
    ∃ e, getCols o ks = Except.error e := by
  induction ks with
  | nil => cases hk
  | cons k' ks ih =>
    by_cases hkk : k' = k
    · subst hkk
      exact ⟨FlatError.keyError k', by simp [getCols, getKey, hm]⟩
    · have hk' : k ∈ ks := by
        rcases List.mem_cons.mp hk with h | h
        · exact absurd h.symm hkk
        · exact h
      cases hgk : getKey o k' with
      | error e => exact ⟨e, by simp [getCols, hgk]⟩
      | ok v =>
        obtain ⟨e, he⟩ := ih hk'
        exact ⟨e, by simp [getCols, hgk, he]⟩

theorem flatten_item_err_of_missing (o : Dict) (k : String)
    (hk : k ∈ unnested_general_keys) (hm : dictGet o k = none) :
    ∃ e, flatten_list_item o = Except.error e := by
  obtain ⟨e, he⟩ := getCols_err_of_missing o unnested_general_keys k hk hm
  refine ⟨e, ?_⟩
  simp only [flatten_list_item]
  rw [he]
  rfl

theorem flatten_items_err (os : List Dict) (o : Dict) (ho : o ∈ os)
    (he : ∃ e, flatten_list_item o = Except.error e) :
    ∃ e2, flatten_items os = Except.error e2 := by
  induction os with
  | nil => cases ho
  | cons o' os ih =>
    cases h1 : flatten_list_item o' with
    | error e => exact ⟨e, by simp [flatten_items, h1]⟩
    | ok row =>
      have ho' : o ∈ os := by
        rcases List.mem_cons.mp ho with h | h
        · obtain ⟨e, he'⟩ := he
          rw [← h] at h1
          rw [h1] at he'
          cases he'
        · exact h
      obtain ⟨e2, he2⟩ := ih ho'
      exact ⟨e2, by simp [flatten_items, h1, he2]⟩

/-- C6: a payload in which some object record lacks one of the required
general fields makes the whole flatten fail with an exception: no row
list is ever produced, in particular no partial table of the earlier
well-formed records. -/
theorem flatten_missing_general_field_aborts
    (payload : List (String × List Dict)) (o : Dict) (k : String)
    (ho : o ∈ allObjects payload) (hk : k ∈ unnested_general_keys)
    (hm : dictGet o k = none) :
    (∃ e, flatten_feed payload = Except.error e) ∧
    ∀ rows, flatten_feed payload ≠ Except.ok rows := by
  obtain ⟨e, he⟩ :=
    flatten_items_err (allObjects payload) o ho (flatten_item_err_of_missing o k hk hm)
  have hfe : flatten_feed payload = Except.error e := he
  refine ⟨⟨e, hfe⟩, ?_⟩
  intro rows hok
  rw [hfe] at hok
  cases hok

/-- Witness for C6: the payload whose second record lacks `name` errors
even though its first record is the fully well-formed example record. -/
theorem flatten_missing_general_field_aborts_witness :
    (∃ e, flatten_feed exPayloadBad = Except.error e) ∧
    ∀ rows, flatten_feed exPayloadBad ≠ Except.ok rows :=
  flatten_missing_general_field_aborts exPayloadBad exItemNoName "name"
    (by simp [allObjects, exPayloadBad]) (by simp [unnested_general_keys]) rfl

theorem sizeGroups_closed (units : List (String × Dict)) :
    sizeGroups (units.map (fun p => (p.1, JVal.obj p.2))) =
      Except.ok
        ((units.map (fun p =>
          p.2.map (fun q => ("size_" ++ p.1 ++ "_" ++ q.1, q.2)))).flatten) := by
  induction units with
  | nil => rfl
  | cons u rest ih =>
    obtain ⟨k, fs⟩ := u
    simp [sizeGroups, asObj, ih]

/-- C7: on a well-formed object record the flattener emits, verbatim and
without conversion, one `size_<unit>_<field>` column per (unit, field)
pair of `estimated_diameter`, the two plain approach columns, and one
`<sub-structure>_<unit>` column per unit of `relative_velocity` and
`miss_distance` of the first close-approach entry; every column value is
the payload value unchanged. -/
theorem flatten_column_naming_passthrough
    (o : Dict) (general : List Col)
    (hg : getCols o unnested_general_keys = Except.ok general)
    (sizeUnits : List (String × Dict))
    (hsize : dictGet o "estimated_diameter" =
      some (JVal.obj (sizeUnits.map (fun p => (p.1, JVal.obj p.2)))))
    (fd : Dict) (rest : List JVal)
    (hcad : dictGet o "close_approach_data" = some (JVal.arr (JVal.obj fd :: rest)))
    (cadf orb : JVal)
    (hcadf : dictGet fd "close_approach_date_full" = some cadf)
    (horb : dictGet fd "orbiting_body" = some orb)
    (rv md : Dict)
    (hrv : dictGet fd "relative_velocity" = some (JVal.obj rv))
    (hmd : dictGet fd "miss_distance" = some (JVal.obj md)) :
    flatten_list_item o = Except.ok
      (general ++
       ((sizeUnits.map (fun p =>
          p.2.map (fun q => ("size_" ++ p.1 ++ "_" ++ q.1, q.2)))).flatten) ++
       [("close_approach_date_full", cadf), ("orbiting_body", orb)] ++
       ((md.map (fun q => ("miss_distance_" ++ q.1, q.2))) ++
        (rv.map (fun q => ("relative_velocity_" ++ q.1, q.2))))) := by
  simp only [flatten_list_item]
  rw [hg]
  simp [getKey, hsize, hcad, asObj, asArr, firstItem, sizeGroups_closed,
    getCols_approach fd cadf orb hcadf horb, nestedLoop_closed fd rv md hrv hmd]

/-- Witness for C7 at the worked example record of spec.md section 8. -/
theorem flatten_column_naming_passthrough_witness :
    flatten_list_item exItem = Except.ok exRow :=
  flatten_column_naming_passthrough exItem
    [("links", JVal.obj []), ("id", JVal.str "1"), ("name", JVal.str "A"),
     ("nasa_jpl_url", JVal.str "u"), ("absolute_magnitude_h", JVal.num "20.1"),
     ("is_potentially_hazardous_asteroid", JVal.boolv false),
     ("is_sentry_object", JVal.boolv false)]
    rfl
    [("kilometers",
      [("estimated_diameter_min", JVal.num "0.1"),
       ("estimated_diameter_max", JVal.num "0.2")])]
    rfl
    exApproach [] rfl
    (JVal.str "2024-Jan-01 00:00") (JVal.str "Earth") rfl rfl
    [("kilometers_per_second", JVal.num "10.5")]
    [("kilometers", JVal.num "50000")]
    rfl rfl

theorem flatten_items_forall2 (os : List Dict) (rows : List (List Col))
    (h : flatten_items os = Except.ok rows) :
    List.Forall₂ (fun o r => flatten_list_item o = Except.ok r) os rows := by
  induction os generalizing rows with
  | nil =>
    simp only [flatten_items] at h
    cases h
    constructor
  | cons o os ih =>
    simp only [flatten_items] at h
    cases h1 : flatten_list_item o with
    | error e =>
      rw [h1] at h
      simp at h
    | ok row =>
      rw [h1] at h
      cases h2 : flatten_items os with
      | error e =>
        rw [h2] at h
        simp at h
      | ok rows2 =>
        rw [h2] at h
        simp only [] at h
        cases h
        exact List.Forall₂.cons h1 (ih rows2 h2)

/-- C8: the rows of a successful flatten correspond one-to-one, in
order, to the payload's objects taken in date iteration order and then
per-date list order: the i-th output row is the flattening of the i-th
object, with no deduplication and no sorting, so the row order is a
deterministic function of the payload order. -/
theorem flatten_preserves_payload_order
    (payload : List (String × List Dict)) (rows : List (List Col))
    (h : flatten_feed payload = Except.ok rows) :
    List.Forall₂ (fun o r => flatten_list_item o = Except.ok r)
      (allObjects payload) rows :=
  flatten_items_forall2 (allObjects payload) rows h

/-- Witness for C8: the two-date example payload yields exactly the two
expected rows in payload order. -/
theorem flatten_preserves_payload_order_witness :
    List.Forall₂ (fun o r => flatten_list_item o = Except.ok r)
      (allObjects exPayload) [exRow, exRow] :=
  flatten_preserves_payload_order exPayload [exRow, exRow] rfl
